import Mathlib

/-!
Shallow embedding of the hackerpet client library's status-parsing core
(`hackerpet/data_types.py`, `hackerpet/exceptions.py`) and proofs about it.

Python strings are modelled as Lean `String`s (ASCII wire data); the JSON
payload of the status endpoint is modelled as an association list from keys
to string values, matching the device wire format in which every field value
is a string.  Fallible Python code (raising exceptions) is modelled with
`Except PyErr`.
-/

namespace Hackerpet

/-- Errors raised by the Python code.  `illegalValue` keeps the class name and
the `str`-rendering of the offending value (Python's `IllegalValue` stores only
the formatted message, so the string rendering is what the exception carries). -/
inductive PyErr where
  | illegalValue (typeName : String) (value : String)
  | outOfRange (message : String)
  | keyError (key : String)
  | valueError (message : String)
  | attributeError (message : String)
deriving DecidableEq

/-- `matchesHead pat l` is true when `pat` occurs at the head of `l`. -/
def matchesHead : List Char → List Char → Bool
  | [], _ => true
  | _ :: _, [] => false
  | a :: as, b :: bs => a == b && matchesHead as bs

/-- `subAt pat l`: `pat` occurs as a contiguous run somewhere in `l`. -/
def subAt (pat : List Char) : List Char → Bool
  | [] => matchesHead pat []
  | c :: t => matchesHead pat (c :: t) || subAt pat t

/-- Python's `pat in s` substring test. -/
def pyIn (pat s : String) : Bool := subAt pat.toList s.toList

/-- Python `str.isdigit` (restricted to ASCII wire data): non-empty and all
characters are decimal digits. -/
def pyIsdigit (s : String) : Bool := !s.toList.isEmpty && s.toList.all (·.isDigit)

/-- Numeric value of a list of decimal digit characters. -/
def digitsToNat (cs : List Char) : Nat :=
  cs.foldl (fun a c => 10 * a + (c.toNat - 48)) 0

/-- Numeric value of a decimal digit string, as produced by Python `int(s)`
on a digit string. -/
def strToNat (s : String) : Nat := digitsToNat s.toList

/-- Split a character list on a separator character (like Python `str.split(sep)`,
keeping empty pieces). -/
def splitOnChar (sep : Char) : List Char → List (List Char)
  | [] => [[]]
  | c :: rest =>
    let r := splitOnChar sep rest
    if c == sep then [] :: r
    else
      match r with
      | [] => [[c]]
      | g :: gs => (c :: g) :: gs

/-- `HubMode` (data_types.py:11-33): STAY_OFF = 0, STAY_ON = 1, SCHEDULED = 2. -/
inductive HubMode where
  | STAY_OFF
  | STAY_ON
  | SCHEDULED
deriving DecidableEq

/-- The integer discriminant of a `HubMode`. -/
def HubMode.toNat : HubMode → Nat
  | .STAY_OFF => 0
  | .STAY_ON => 1
  | .SCHEDULED => 2

/-- Enum-by-value lookup `HubMode(n)`: the member with discriminant `n`, if any. -/
def HubMode.ofNat? : Nat → Option HubMode
  | 0 => some .STAY_OFF
  | 1 => some .STAY_ON
  | 2 => some .SCHEDULED
  | _ => none

/-- `HubMode.from_int_str` (data_types.py:28-33): reject non-digit strings via
`_missing_` (which raises `IllegalValue`), otherwise `HubMode(int(s))`, whose
enum lookup raises `IllegalValue(HubMode, int(s))` on an unknown discriminant. -/
def HubMode.from_int_str (mode_str : String) : Except PyErr HubMode :=
  if !pyIsdigit mode_str then
    .error (.illegalValue "HubMode" mode_str)
  else
    match HubMode.ofNat? (strToNat mode_str) with
    | some m => .ok m
    | none => .error (.illegalValue "HubMode" (toString (strToNat mode_str)))

/-- `HubStatus` (data_types.py:37-73). -/
inductive HubStatus where
  | PLAYING
  | EMPTY
  | PLATTER_JAMMED
  | POD_JAMMED
  | DOME_REMOVED
deriving DecidableEq

/-- `HubStatus.from_status` (data_types.py:58-73): first-match-wins substring
table over the free-text status message; no match raises
`IllegalValue(HubStatus, status)`. -/
def HubStatus.from_status (status : String) : Except PyErr HubStatus :=
  if pyIn "Your hub is working" status then .ok .PLAYING
  else if pyIn "Out of food" status then .ok .EMPTY
  else if pyIn "Platter is jammed" status then .ok .PLATTER_JAMMED
  else if pyIn "Singulator is jammed" status then .ok .POD_JAMMED
  else if pyIn "Dome is removed" status then .ok .DOME_REMOVED
  else .error (.illegalValue "HubStatus" status)

/-- `Game` (data_types.py:77-133): game levels with discriminants 0..11. -/
inductive Game where
  | GAME0
  | GAME1
  | GAME2
  | GAME3
  | GAME4
  | GAME5
  | GAME6
  | GAME7
  | GAME8
  | GAME9
  | GAME10
  | GAME11
deriving DecidableEq

/-- The integer discriminant of a `Game`. -/
def Game.toNat : Game → Nat
  | .GAME0 => 0
  | .GAME1 => 1
  | .GAME2 => 2
  | .GAME3 => 3
  | .GAME4 => 4
  | .GAME5 => 5
  | .GAME6 => 6
  | .GAME7 => 7
  | .GAME8 => 8
  | .GAME9 => 9
  | .GAME10 => 10
  | .GAME11 => 11

/-- Enum-by-value lookup `Game(n)`: the member with discriminant `n`, if any. -/
def Game.ofNat? : Nat → Option Game
  | 0 => some .GAME0
  | 1 => some .GAME1
  | 2 => some .GAME2
  | 3 => some .GAME3
  | 4 => some .GAME4
  | 5 => some .GAME5
  | 6 => some .GAME6
  | 7 => some .GAME7
  | 8 => some .GAME8
  | 9 => some .GAME9
  | 10 => some .GAME10
  | 11 => some .GAME11
  | _ => none

/-- `Game.from_int_str` (data_types.py:128-133): reject non-digit strings via
`_missing_`, otherwise `Game(int(s))`; an out-of-enumeration integer makes the
enum lookup call `_missing_` with the parsed integer, so the raised
`IllegalValue` renders the integer (e.g. `"12"`), not the original string. -/
def Game.from_int_str (game_str : String) : Except PyErr Game :=
  if !pyIsdigit game_str then
    .error (.illegalValue "Game" game_str)
  else
    match Game.ofNat? (strToNat game_str) with
    | some g => .ok g
    | none => .error (.illegalValue "Game" (toString (strToNat game_str)))

/-- `GameTransitioning` (data_types.py:136-158). -/
structure GameTransitioning where
  prev : Game
  next : Game
  value : Nat
deriving DecidableEq

/-- `GameTransitioning.__init__` (data_types.py:147-150): `value` is set to the
discriminant of `next_game`. -/
def GameTransitioning.make (prev_game next_game : Game) : GameTransitioning :=
  ⟨prev_game, next_game, next_game.toNat⟩

/-- `HubState` (data_types.py:162-175). -/
inductive HubState where
  | STANDBY
  | ACTIVE
deriving DecidableEq

/-- `HubState(s)` enum-by-value lookup: exact match against `"Standby"` /
`"Active"`; anything else goes to `_missing_`, raising `IllegalValue`. -/
def HubState.ofStr (s : String) : Except PyErr HubState :=
  if s = "Standby" then .ok .STANDBY
  else if s = "Active" then .ok .ACTIVE
  else .error (.illegalValue "HubState" s)

/-- A wall-clock time of day, modelling Python's `datetime.time`. -/
structure PyTime where
  hour : Nat
  minute : Nat
  second : Nat
deriving DecidableEq

/-- The dynamically-typed Python values that flow through the untyped spots of
this code: wire strings, integers, `None`, and `datetime.time` objects. -/
inductive PyVal where
  | str (s : String)
  | int (n : Int)
  | pynone
  | time (t : PyTime)
deriving DecidableEq

/-- Python truthiness for the `PyVal` universe: `""`, `0` and `None` are falsy. -/
def pyTruthy : PyVal → Bool
  | .str s => s ≠ ""
  | .int n => n ≠ 0
  | .pynone => false
  | .time _ => true

/-- `MaxKibbles` (data_types.py:178-199).  The fields keep whatever runtime
value Python stores in them (`Status.from_json` passes the raw wire string
straight through, despite the `Optional[int]` annotation). -/
structure MaxKibbles where
  limit_ : PyVal
  value : PyVal
deriving DecidableEq

/-- `MaxKibbles.__init__` (data_types.py:188-190):
`self.value = limit if limit else 0` (Python truthiness). -/
def MaxKibbles.make (limit : PyVal) : MaxKibbles :=
  ⟨limit, if pyTruthy limit then limit else .int 0⟩

/-- `Schedule` (data_types.py:202-264).  The four fields hold whatever runtime
value Python stores in them: `datetime.time` objects when built by the
constructor, raw wire strings when built by `Schedule.from_json` (which stores
the payload values unconverted, despite the `time` annotations). -/
structure Schedule where
  weekday_from : PyVal
  weekday_to : PyVal
  weekend_from : PyVal
  weekend_to : PyVal
deriving DecidableEq

/-- Left-pad a two-digit decimal rendering (`%H` / `%M` / `%S` zero padding). -/
def zpad2 (n : Nat) : String :=
  if n < 10 then "0" ++ toString n else toString n

/-- `Schedule._hm_format` (data_types.py:222-224): `tme.strftime("%H:%S")` —
the source formats the HOUR and the SECOND (not the minute).  Calling it on a
non-`time` value (e.g. a string stored by `Schedule.from_json`) is an
`AttributeError` in Python. -/
def Schedule.hm_format : PyVal → Except PyErr String
  | .time t => .ok (zpad2 t.hour ++ ":" ++ zpad2 t.second)
  | _ => .error (.attributeError "strftime")

/-- The JSON payload of the status endpoint: an association list from keys to
string values (every field of the device's status JSON is a string). -/
abbrev Payload := List (String × String)

/-- `payload[key]` on a dict: the stored value, or `KeyError`. -/
def pyGet (p : Payload) (k : String) : Except PyErr String :=
  match p.find? (fun kv => kv.1 == k) with
  | some kv => .ok kv.2
  | none => .error (.keyError k)

/-- `Schedule.from_json` (data_types.py:244-251): reads the four schedule keys
out of the payload and stores the raw values unconverted. -/
def Schedule.from_json (payload : Payload) : Except PyErr Schedule := do
  let weekday_from ← pyGet payload "weekday_from"
  let weekday_to ← pyGet payload "weekday_to"
  let weekend_from ← pyGet payload "weekend_from"
  let weekend_to ← pyGet payload "weekend_to"
  return ⟨.str weekday_from, .str weekday_to, .str weekend_from, .str weekend_to⟩

/-- The dict built inside `Schedule.payload` (data_types.py:256-262), before
`json.dumps`: the four schedule keys in insertion order, each value formatted
by `_hm_format`. -/
def Schedule.payloadDict (s : Schedule) : Except PyErr Payload := do
  let wdf ← Schedule.hm_format s.weekday_from
  let wdt ← Schedule.hm_format s.weekday_to
  let wef ← Schedule.hm_format s.weekend_from
  let wet ← Schedule.hm_format s.weekend_to
  return [("weekday_from", wdf), ("weekday_to", wdt),
          ("weekend_from", wef), ("weekend_to", wet)]

/-- `json.dumps(d, separators=(",", ":"))` for a string-valued dict whose keys
and values contain no characters needing JSON escaping. -/
def jsonDumpsCompact (kvs : Payload) : String :=
  "\x7b" ++
    String.intercalate ","
      (kvs.map fun kv => "\"" ++ kv.1 ++ "\":\"" ++ kv.2 ++ "\"") ++
  "\x7d"

/-- `Schedule.payload` (data_types.py:253-264): compact JSON serialization of
the four `_hm_format`-formatted fields. -/
def Schedule.payload (s : Schedule) : Except PyErr String := do
  let d ← Schedule.payloadDict s
  return jsonDumpsCompact d

/-- A calendar timestamp, modelling Python's `datetime`. -/
structure PyDateTime where
  year : Nat
  month : Nat
  day : Nat
  hour : Nat
  minute : Nat
  second : Nat
deriving DecidableEq

/-- The abbreviated weekday names accepted by `%a`. -/
def weekdayAbbrevs : List String :=
  ["Mon", "Tue", "Wed", "Thu", "Fri", "Sat", "Sun"]

/-- Number of the month whose `%b` abbreviation is given, if any. -/
def monthOfAbbrev : String → Option Nat
  | "Jan" => some 1
  | "Feb" => some 2
  | "Mar" => some 3
  | "Apr" => some 4
  | "May" => some 5
  | "Jun" => some 6
  | "Jul" => some 7
  | "Aug" => some 8
  | "Sep" => some 9
  | "Oct" => some 10
  | "Nov" => some 11
  | "Dec" => some 12
  | _ => none

/-- List-of-chars view of a digit-field check: non-empty and all digits. -/
def allDigits (cs : List Char) : Bool := !cs.isEmpty && cs.all (·.isDigit)

/-- `datetime.strptime(s, "%a %b %d %H:%M:%S %Y")` (data_types.py:287): five
space-separated fields — weekday abbreviation, month abbreviation, day of
month, `HH:MM:SS`, year — with range checks; a mismatch is a `ValueError`. -/
def strptime_status (s : String) : Except PyErr PyDateTime :=
  match (splitOnChar ' ' s.toList).map List.asString with
  | [wd, mon, day, hms, yr] =>
    if !weekdayAbbrevs.contains wd then .error (.valueError s)
    else
      match monthOfAbbrev mon with
      | none => .error (.valueError s)
      | some m =>
        if !(pyIsdigit day && 1 ≤ strToNat day && strToNat day ≤ 31) then
          .error (.valueError s)
        else
          match (splitOnChar ':' hms.toList).map List.asString with
          | [hh, mi, ss] =>
            if pyIsdigit hh && strToNat hh ≤ 23 &&
               pyIsdigit mi && strToNat mi ≤ 59 &&
               pyIsdigit ss && strToNat ss ≤ 61 &&
               pyIsdigit yr then
              .ok ⟨strToNat yr, m, strToNat day,
                   strToNat hh, strToNat mi, strToNat ss⟩
            else .error (.valueError s)
          | _ => .error (.valueError s)
  | _ => .error (.valueError s)

/-- The exact value of a finite decimal numeral, `mantissa / 10 ^ exp`.
Models the number produced by Python `float(s)` for the decimal strings used
on this wire (the IEEE-754 rounding of `float` is immaterial here: every
string the claims exercise is either rejected or truncated to the same
integer). -/
structure PyFloat where
  mantissa : Int
  exp : Nat
deriving DecidableEq

/-- Python `float(s)` on the decimal forms used on this wire
(`[sign]digits[.digits]`, with at least one digit); `none` models the
`ValueError` raised on anything else. -/
def pyFloatParse (s : String) : Option PyFloat :=
  let cs := s.toList
  let sgn : Int := match cs with
    | '-' :: _ => -1
    | _ => 1
  let rest : List Char := match cs with
    | '-' :: r => r
    | '+' :: r => r
    | r => r
  match splitOnChar '.' rest with
  | [ip] =>
    if allDigits ip then some ⟨sgn * (digitsToNat ip : Int), 0⟩
    else none
  | [ip, fp] =>
    if (!ip.isEmpty || !fp.isEmpty) && ip.all (·.isDigit) && fp.all (·.isDigit) then
      some ⟨sgn * ((digitsToNat ip * 10 ^ fp.length + digitsToNat fp : Nat) : Int), fp.length⟩
    else none
  | _ => none

/-- Python `int(x)` on a number: truncation toward zero. -/
def pyInt (q : PyFloat) : Int :=
  Int.tdiv q.mantissa ((10 ^ q.exp : Nat) : Int)

/-- The runtime value stored in `Status.game`.  `tuple1` models a Python
one-element tuple: `Status.from_json` (data_types.py:295-301) assigns
`game = ( ... ,)` with a trailing comma, so the field actually holds a
1-tuple wrapping the `Game` / `GameTransitioning` value. -/
inductive GameVal where
  | game (g : Game)
  | trans (t : GameTransitioning)
  | tuple1 (v : GameVal)
deriving DecidableEq

/-- `Status` (data_types.py:267-277). -/
structure Status where
  time : PyDateTime
  hub_mode : HubMode
  game : GameVal
  hub_state : HubState
  max_kibbles : MaxKibbles
  timezone_offset : Int
  schedule : Option Schedule
deriving DecidableEq

/-- `Status.from_json` (data_types.py:279-322), step for step:
time, hub_mode, the two game ids (the resulting value is wrapped in a
one-element tuple by the source's trailing comma), hub_state, max_kibbles
(handed the raw wire string), timezone (`int(float(s))`, `ValueError`
re-raised as `IllegalValue(float, s)`), and the schedule only in
SCHEDULED mode. -/
def Status.from_json (raw_body : Payload) : Except PyErr Status := do
  let timeStr ← pyGet raw_body "time"
  let tme ← strptime_status timeStr
  let hubModeStr ← pyGet raw_body "hub_mode"
  let hub_mode ← HubMode.from_int_str hubModeStr
  let playingStr ← pyGet raw_body "game_id_playing"
  let prev_game ← Game.from_int_str playingStr
  let queuedStr ← pyGet raw_body "game_id_queued"
  let next_game ← Game.from_int_str queuedStr
  let game : GameVal :=
    .tuple1 (if prev_game = next_game then .game next_game
             else .trans (GameTransitioning.make prev_game next_game))
  let hubStateStr ← pyGet raw_body "hub_state"
  let hub_state ← HubState.ofStr hubStateStr
  let maxKibblesStr ← pyGet raw_body "max_kibbles"
  let max_kibbles := MaxKibbles.make (.str maxKibblesStr)
  let timezone_offset_str ← pyGet raw_body "timezone"
  let timezone_offset ←
    match pyFloatParse timezone_offset_str with
    | some q => pure (pyInt q)
    | none => .error (.illegalValue "float" timezone_offset_str)
  let schedule ←
    if hub_mode = HubMode.SCHEDULED then do
      let sch ← Schedule.from_json raw_body
      pure (some sch)
    else
      pure none
  return ⟨tme, hub_mode, game, hub_state, max_kibbles, timezone_offset, schedule⟩

/-- The message built by `OutOfRange.__init__` (exceptions.py:21-26). -/
def outOfRangeMessage (name : String) (lower upper found : Int) : String :=
  s!"expected value {name} to be in range [{lower}, {upper}], but found {found}"

/-- `OutOfRange.test_range` (exceptions.py:28-32): raise `OutOfRange` when the
value is strictly below the lower bound or strictly above the upper bound. -/
def test_range (name : String) (lower upper found : Int) : Except PyErr Unit :=
  if found < lower || found > upper then
    .error (.outOfRange (outOfRangeMessage name lower upper found))
  else
    .ok ()

/-- The raw status payload of the end-to-end example (spec §8; also the sample
response in tests/status_test.py, restricted to the keys named by the claim). -/
def examplePayload : Payload :=
  [("timezone", "-5.000000"), ("hub_mode", "1"), ("game_id_queued", "9"),
   ("game_id_playing", "9"), ("hub_state", "Active"),
   ("time", "Sat Jul 30 15:23:41 2022"), ("max_kibbles", "0")]

/-- The example payload with the queued game changed to `"10"`, so the two
game ids differ. -/
def examplePayloadTransitioning : Payload :=
  [("timezone", "-5.000000"), ("hub_mode", "1"), ("game_id_queued", "10"),
   ("game_id_playing", "9"), ("hub_state", "Active"),
   ("time", "Sat Jul 30 15:23:41 2022"), ("max_kibbles", "0")]

/-- The example payload with timezone `"-5.900000"` (exercises truncation
toward zero). -/
def examplePayloadTz59 : Payload :=
  [("timezone", "-5.900000"), ("hub_mode", "1"), ("game_id_queued", "9"),
   ("game_id_playing", "9"), ("hub_state", "Active"),
   ("time", "Sat Jul 30 15:23:41 2022"), ("max_kibbles", "0")]

/-- The example payload with an unparseable timezone string. -/
def examplePayloadTzAbc : Payload :=
  [("timezone", "abc"), ("hub_mode", "1"), ("game_id_queued", "9"),
   ("game_id_playing", "9"), ("hub_state", "Active"),
   ("time", "Sat Jul 30 15:23:41 2022"), ("max_kibbles", "0")]

/-- A payload in SCHEDULED mode (`hub_mode = "2"`) carrying the four schedule
keys, mirroring the sample response in tests/status_test.py. -/
def scheduledPayload : Payload :=
  [("timezone", "-5.000000"), ("hub_mode", "2"), ("game_id_queued", "9"),
   ("game_id_playing", "9"), ("hub_state", "Active"),
   ("time", "Sat Jul 30 15:23:41 2022"), ("max_kibbles", "0"),
   ("weekday_from", "09:00"), ("weekday_to", "16:00"),
   ("weekend_from", "09:00"), ("weekend_to", "16:00")]

/-- A `Schedule` built from four `datetime.time` values with zero seconds,
one of which has a non-zero minute. -/
def exampleSchedule : Schedule :=
  ⟨.time ⟨9, 30, 0⟩, .time ⟨16, 0, 0⟩, .time ⟨10, 0, 0⟩, .time ⟨15, 0, 0⟩⟩

/-- The `Status` that `Status.from_json` produces on `scheduledPayload`. -/
def scheduledStatus : Status :=
  ⟨⟨2022, 7, 30, 15, 23, 41⟩, .SCHEDULED, .tuple1 (.game .GAME9), .ACTIVE,
   ⟨.str "0", .str "0"⟩, -5,
   some ⟨.str "09:00", .str "16:00", .str "09:00", .str "16:00"⟩⟩

end Hackerpet

deriving instance DecidableEq for Except

namespace Hackerpet

/-- Inverting a successful `Except` bind. -/
theorem except_bind_ok {ε α β : Type} {x : Except ε α} {f : α → Except ε β} {b : β}
    (h : x >>= f = .ok b) : ∃ a, x = .ok a ∧ f a = .ok b := by
  cases x with
  | ok a => exact ⟨a, rfl, h⟩
  | error e => simp [Bind.bind, Except.bind] at h

/-- Every discriminant up to 11 names a `Game`, with matching `toNat`. -/
theorem Game.ofNat?_le (n : Nat) (h : n ≤ 11) :
    ∃ g, Game.ofNat? n = some g ∧ Game.toNat g = n := by
  interval_cases n <;> exact ⟨_, rfl, rfl⟩

/-- Discriminants from 12 upward name no `Game`. -/
theorem Game.ofNat?_gt (k : Nat) : Game.ofNat? (k + 12) = none := rfl

/-- A successful `Game` enum lookup pins the discriminant. -/
theorem Game.ofNat?_some_toNat (n : Nat) (g : Game) (h : Game.ofNat? n = some g) :
    Game.toNat g = n := by
  by_cases hle : n ≤ 11
  · obtain ⟨g0, h0, ht⟩ := Game.ofNat?_le n hle
    rw [h0] at h
    cases h
    exact ht
  · obtain ⟨k, rfl⟩ : ∃ k, n = k + 12 := ⟨n - 12, by omega⟩
    rw [Game.ofNat?_gt] at h
    cases h

/-- C1: the claim says the `game` field of the parsed `Status` is the bare
`Game` value when the two ids agree, and the bare `GameTransitioning` when
they differ.  The source (data_types.py:295-301) wraps that value in a
one-element tuple through a trailing comma, so the field is the tuple, not
the bare value — though the wrapped `GameTransitioning` does carry
`prev = GAME9`, `next = GAME10` and `value = 10` as the claim describes. -/
theorem C1_game_field_is_tuple :
    (Status.from_json examplePayload).map Status.game =
      .ok (GameVal.tuple1 (.game .GAME9)) ∧
    GameVal.tuple1 (.game .GAME9) ≠ GameVal.game .GAME9 ∧
    (Status.from_json examplePayloadTransitioning).map Status.game =
      .ok (GameVal.tuple1 (.trans (GameTransitioning.make .GAME9 .GAME10))) ∧
    GameTransitioning.make .GAME9 .GAME10 =
      ⟨.GAME9, .GAME10, Game.toNat .GAME10⟩ ∧
    (∀ t : GameTransitioning,
       GameVal.tuple1 (.trans (GameTransitioning.make .GAME9 .GAME10)) ≠
         GameVal.trans t) :=
  ⟨by decide, by decide, by decide, by decide, fun _ h => nomatch h⟩

/-- C2: parsing the example payload succeeds with `hub_mode = STAY_ON`,
`hub_state = ACTIVE`, `timezone_offset = -5` and `schedule = none` as the
claim says, but the `game` field is the one-element tuple `(GAME9,)` rather
than `GAME9`, and `max_kibbles` holds the raw wire string `"0"` — a truthy
value, so `MaxKibbles.value` is the string `"0"`, not the canonical
unlimited value `0`. -/
theorem C2_end_to_end :
    Status.from_json examplePayload =
      .ok ⟨⟨2022, 7, 30, 15, 23, 41⟩, .STAY_ON, .tuple1 (.game .GAME9), .ACTIVE,
           ⟨.str "0", .str "0"⟩, -5, none⟩ ∧
    (MaxKibbles.make (.str "0")).value ≠ .int 0 ∧
    GameVal.tuple1 (.game .GAME9) ≠ GameVal.game Game.GAME9 := by
  decide

/-- C3: the round trip `Schedule → payload dict → Schedule.from_json` does not
restore the original schedule: `_hm_format` renders `"%H:%S"` (hour and
second), so 09:30 serializes as `"09:00"`, and `Schedule.from_json` stores the
wire strings unconverted, so the reconstructed fields are strings rather than
the original time values. -/
theorem C3_roundtrip_fails :
    Schedule.payloadDict exampleSchedule =
      .ok [("weekday_from", "09:00"), ("weekday_to", "16:00"),
           ("weekend_from", "10:00"), ("weekend_to", "15:00")] ∧
    Schedule.from_json [("weekday_from", "09:00"), ("weekday_to", "16:00"),
                        ("weekend_from", "10:00"), ("weekend_to", "15:00")] =
      .ok ⟨.str "09:00", .str "16:00", .str "10:00", .str "15:00"⟩ ∧
    (⟨.str "09:00", .str "16:00", .str "10:00", .str "15:00"⟩ : Schedule) ≠
      exampleSchedule := by
  decide

/-- C4: `Schedule.payload` does produce a compact JSON object with exactly the
four schedule keys and no whitespace, but each value is formatted by
`strftime("%H:%S")` — zero-padded hour, colon, zero-padded SECOND — so the
09:30 weekday start serializes as `"09:00"`, not the `"HH:MM"` value
`"09:30"` the claim requires. -/
theorem C4_payload_wire_format :
    Schedule.payload exampleSchedule =
      .ok ("\x7b\"weekday_from\":\"09:00\",\"weekday_to\":\"16:00\"," ++
           "\"weekend_from\":\"10:00\",\"weekend_to\":\"15:00\"\x7d") ∧
    Schedule.hm_format (.time ⟨9, 30, 0⟩) = .ok "09:00" ∧
    ("09:00" : String) ≠ "09:30" := by
  decide

/-- C5 counterexample: for the digit string `"012"` (whose integer value 12 is
outside [0,11]) the enum lookup calls `_missing_` with the parsed integer, so
the raised `IllegalValue` renders `12`, not the original string `"012"` the
claim says it names. -/
theorem C5_counterexample :
    Game.from_int_str "012" = .error (.illegalValue "Game" "12") ∧
    PyErr.illegalValue "Game" "12" ≠ .illegalValue "Game" "012" := by
  decide

/-- C5 (amended): `Game.from_int_str s` succeeds with the matching variant
exactly when `s` is a non-empty digit string whose value is at most 11; a
non-digit string raises `IllegalValue` naming `Game` and `s` itself, while a
digit string with value above 11 raises `IllegalValue` naming `Game` and the
decimal rendering of the parsed integer (which differs from `s` when `s` has
leading zeros). -/
theorem C5_from_int_str_amended (s : String) :
    (pyIsdigit s = true → strToNat s ≤ 11 →
       ∃ g : Game, Game.from_int_str s = .ok g ∧ Game.toNat g = strToNat s) ∧
    (pyIsdigit s = false → Game.from_int_str s = .error (.illegalValue "Game" s)) ∧
    (pyIsdigit s = true → 11 < strToNat s →
       Game.from_int_str s = .error (.illegalValue "Game" (toString (strToNat s)))) ∧
    (∀ g : Game, Game.from_int_str s = .ok g →
       pyIsdigit s = true ∧ strToNat s = Game.toNat g) := by
  refine ⟨?_, ?_, ?_, ?_⟩
  · intro hd hle
    obtain ⟨g, hg, ht⟩ := Game.ofNat?_le (strToNat s) hle
    exact ⟨g, by simp [Game.from_int_str, hd, hg], ht⟩
  · intro hd
    simp [Game.from_int_str, hd]
  · intro hd hgt
    obtain ⟨k, hk⟩ : ∃ k, strToNat s = k + 12 := ⟨strToNat s - 12, by omega⟩
    simp [Game.from_int_str, hd, hk, Game.ofNat?_gt]
  · intro g h
    by_cases hd : pyIsdigit s
    · refine ⟨hd, ?_⟩
      simp only [Game.from_int_str, hd, Bool.not_true, Bool.false_eq_true,
        if_false] at h
      cases hq : Game.ofNat? (strToNat s) with
      | none => rw [hq] at h; cases h
      | some g0 =>
        rw [hq] at h
        cases h
        exact (Game.ofNat?_some_toNat _ _ hq).symm
    · rw [Bool.not_eq_true] at hd
      simp [Game.from_int_str, hd] at h

/-- C5 witness: the amended theorem applied at `s = "9"`. -/
theorem C5_amended_witness :
    pyIsdigit "9" = true ∧ strToNat "9" ≤ 11 ∧
    ∃ g : Game, Game.from_int_str "9" = .ok g ∧ Game.toNat g = strToNat "9" :=
  ⟨by decide, by decide, (C5_from_int_str_amended "9").1 (by decide) (by decide)⟩

/-- C6: `HubStatus.from_status` resolves the free-text message through the
ordered substring table working→PLAYING, out-of-food→EMPTY,
platter→PLATTER_JAMMED, singulator→POD_JAMMED, dome→DOME_REMOVED with the
first match winning, raises `IllegalValue(HubStatus, s)` when no listed
substring occurs, and in particular maps `"Out of food, please refill."` to
EMPTY and fails on `"everything is great"`. -/
theorem C6_from_status_first_match (s : String) :
    (pyIn "Your hub is working" s = true →
       HubStatus.from_status s = .ok .PLAYING) ∧
    (pyIn "Your hub is working" s = false → pyIn "Out of food" s = true →
       HubStatus.from_status s = .ok .EMPTY) ∧
    (pyIn "Your hub is working" s = false → pyIn "Out of food" s = false →
       pyIn "Platter is jammed" s = true →
       HubStatus.from_status s = .ok .PLATTER_JAMMED) ∧
    (pyIn "Your hub is working" s = false → pyIn "Out of food" s = false →
       pyIn "Platter is jammed" s = false → pyIn "Singulator is jammed" s = true →
       HubStatus.from_status s = .ok .POD_JAMMED) ∧
    (pyIn "Your hub is working" s = false → pyIn "Out of food" s = false →
       pyIn "Platter is jammed" s = false → pyIn "Singulator is jammed" s = false →
       pyIn "Dome is removed" s = true →
       HubStatus.from_status s = .ok .DOME_REMOVED) ∧
    (pyIn "Your hub is working" s = false → pyIn "Out of food" s = false →
       pyIn "Platter is jammed" s = false → pyIn "Singulator is jammed" s = false →
       pyIn "Dome is removed" s = false →
       HubStatus.from_status s = .error (.illegalValue "HubStatus" s)) ∧
    HubStatus.from_status "Out of food, please refill." = .ok .EMPTY ∧
    HubStatus.from_status "everything is great" =
      .error (.illegalValue "HubStatus" "everything is great") := by
  refine ⟨?_, ?_, ?_, ?_, ?_, ?_, by decide, by decide⟩ <;>
    (intros; simp_all [HubStatus.from_status])

/-- C6 witness: the table theorem applied at the claim's example message. -/
theorem C6_witness :
    HubStatus.from_status "Out of food, please refill." = .ok .EMPTY :=
  (C6_from_status_first_match "Out of food, please refill.").2.1
    (by decide) (by decide)

/-- C7: the timezone wire field is converted to a number and truncated toward
zero: `"-5.000000"` parses to the exact decimal -5000000/10^6 and yields
timezone_offset -5 (so does `"-5.900000"`, demonstrating truncation), while
the non-numeric `"abc"` makes `Status.from_json` fail with `IllegalValue`
carrying the numeric type name `float` and the offending string. -/
theorem C7_timezone_parse :
    (Status.from_json examplePayload).map Status.timezone_offset = .ok (-5) ∧
    pyFloatParse "-5.000000" = some ⟨-5000000, 6⟩ ∧
    pyInt ⟨-5000000, 6⟩ = -5 ∧
    (Status.from_json examplePayloadTz59).map Status.timezone_offset = .ok (-5) ∧
    pyFloatParse "abc" = none ∧
    Status.from_json examplePayloadTzAbc = .error (.illegalValue "float" "abc") := by
  decide

/-- C8: `OutOfRange.test_range` fails exactly when the value is strictly
outside the inclusive bounds, its error carries the message
`expected value <name> to be in range [<lower>, <upper>], but found <found>`,
and at the claim's concrete inputs: value 14 with bounds [-12, 13] fails with
that exact message while values -12 and 13 succeed. -/
theorem C8_test_range (name : String) (lower upper found : Int) :
    ((∃ e, test_range name lower upper found = .error e) ↔
       found < lower ∨ upper < found) ∧
    (∀ e, test_range name lower upper found = .error e →
       e = .outOfRange
         s!"expected value {name} to be in range [{lower}, {upper}], but found {found}") ∧
    (¬(found < lower ∨ upper < found) → test_range name lower upper found = .ok ()) ∧
    test_range "timezone_offset" (-12) 13 14 =
      .error (.outOfRange
        "expected value timezone_offset to be in range [-12, 13], but found 14") ∧
    test_range "timezone_offset" (-12) 13 (-12) = .ok () ∧
    test_range "timezone_offset" (-12) 13 13 = .ok () := by
  have hcond : (found < lower || found > upper) = true ↔
      found < lower ∨ upper < found := by
    simp [Bool.or_eq_true, decide_eq_true_eq, gt_iff_lt]
  refine ⟨?_, ?_, ?_, by decide, by decide, by decide⟩
  · constructor
    · rintro ⟨e, he⟩
      by_contra hc
      rw [test_range, if_neg (fun hb => hc (hcond.mp hb))] at he
      cases he
    · intro hc
      exact ⟨_, by rw [test_range, if_pos (hcond.mpr hc)]⟩
  · intro e he
    by_cases hc : found < lower ∨ upper < found
    · rw [test_range, if_pos (hcond.mpr hc)] at he
      cases he
      rfl
    · rw [test_range, if_neg (fun hb => hc (hcond.mp hb))] at he
      cases he
  · intro hc
    rw [test_range, if_neg (fun hb => hc (hcond.mp hb))]

/-- C8 witness: the range theorem applied at the claim's concrete inputs. -/
theorem C8_witness :
    test_range "timezone_offset" (-12) 13 (-12) = .ok () ∧
    test_range "timezone_offset" (-12) 13 13 = .ok () ∧
    (∃ e, test_range "timezone_offset" (-12) 13 14 = .error e) :=
  ⟨(C8_test_range "timezone_offset" (-12) 13 (-12)).2.2.1 (by omega),
   (C8_test_range "timezone_offset" (-12) 13 13).2.2.1 (by omega),
   (C8_test_range "timezone_offset" (-12) 13 14).1.mpr (by omega)⟩

/-- C9: whenever `Status.from_json` succeeds, the schedule field is `none`
exactly outside SCHEDULED mode; in SCHEDULED mode it is populated (never
`none`) from the payload's four schedule keys. -/
theorem C9_schedule_presence (raw : Payload) (st : Status)
    (h : Status.from_json raw = .ok st) :
    (st.hub_mode ≠ .SCHEDULED → st.schedule = none) ∧
    (st.hub_mode = .SCHEDULED →
       ∃ a b c d, pyGet raw "weekday_from" = .ok a ∧
         pyGet raw "weekday_to" = .ok b ∧
         pyGet raw "weekend_from" = .ok c ∧
         pyGet raw "weekend_to" = .ok d ∧
         st.schedule = some ⟨.str a, .str b, .str c, .str d⟩) := by
  simp only [Status.from_json] at h
  obtain ⟨timeStr, h1, h⟩ := except_bind_ok h
  obtain ⟨tme, h2, h⟩ := except_bind_ok h
  obtain ⟨hubModeStr, h3, h⟩ := except_bind_ok h
  obtain ⟨hub_mode, h4, h⟩ := except_bind_ok h
  obtain ⟨playingStr, h5, h⟩ := except_bind_ok h
  obtain ⟨prev_game, h6, h⟩ := except_bind_ok h
  obtain ⟨queuedStr, h7, h⟩ := except_bind_ok h
  obtain ⟨next_game, h8, h⟩ := except_bind_ok h
  obtain ⟨hubStateStr, h9, h⟩ := except_bind_ok h
  obtain ⟨hub_state, h10, h⟩ := except_bind_ok h
  obtain ⟨maxKibblesStr, h11, h⟩ := except_bind_ok h
  obtain ⟨tzStr, h12, h⟩ := except_bind_ok h
  cases hq : pyFloatParse tzStr with
  | none =>
    rw [hq] at h
    obtain ⟨y, hfalse, _⟩ := except_bind_ok h
    exact Except.noConfusion hfalse
  | some q =>
    rw [hq] at h
    obtain ⟨tz, h13, h⟩ := except_bind_ok h
    by_cases hm : hub_mode = HubMode.SCHEDULED
    · rw [if_pos hm] at h
      obtain ⟨sch, hs, h⟩ := except_bind_ok h
      obtain ⟨osch, hosch, h⟩ := except_bind_ok h
      injection hosch with hosch
      injection h with hst
      subst hst
      simp only [Schedule.from_json] at hs
      obtain ⟨a, ha, hs⟩ := except_bind_ok hs
      obtain ⟨b, hb, hs⟩ := except_bind_ok hs
      obtain ⟨c, hc, hs⟩ := except_bind_ok hs
      obtain ⟨d, hd, hs⟩ := except_bind_ok hs
      injection hs with hsch
      constructor
      · intro hne
        exact absurd hm hne
      · intro _
        exact ⟨a, b, c, d, ha, hb, hc, hd, by rw [← hosch, ← hsch]⟩
    · rw [if_neg hm] at h
      obtain ⟨osch, hosch, h⟩ := except_bind_ok h
      injection hosch with hosch
      injection h with hst
      subst hst
      constructor
      · intro _
        exact hosch.symm
      · intro heq
        exact absurd heq hm

/-- C9 witness: the schedule-presence theorem applied to the SCHEDULED-mode
example payload. -/
theorem C9_witness :
    (scheduledStatus.hub_mode ≠ .SCHEDULED → scheduledStatus.schedule = none) ∧
    (scheduledStatus.hub_mode = .SCHEDULED →
       ∃ a b c d, pyGet scheduledPayload "weekday_from" = .ok a ∧
         pyGet scheduledPayload "weekday_to" = .ok b ∧
         pyGet scheduledPayload "weekend_from" = .ok c ∧
         pyGet scheduledPayload "weekend_to" = .ok d ∧
         scheduledStatus.schedule = some ⟨.str a, .str b, .str c, .str d⟩) :=
  C9_schedule_presence scheduledPayload scheduledStatus (by decide)

/-- C10: `Schedule.from_json` does no parsing or validation: when the four
schedule keys are present it always succeeds, and the constructed fields are
exactly the raw wire values stored under those keys (strings stay strings). -/
theorem C10_from_json_stores_raw (raw : Payload) (a b c d : String)
    (h1 : pyGet raw "weekday_from" = .ok a) (h2 : pyGet raw "weekday_to" = .ok b)
    (h3 : pyGet raw "weekend_from" = .ok c) (h4 : pyGet raw "weekend_to" = .ok d) :
    Schedule.from_json raw = .ok ⟨.str a, .str b, .str c, .str d⟩ := by
  simp [Schedule.from_json, h1, h2, h3, h4, Bind.bind, Except.bind, pure,
    Except.pure]

/-- C10 witness: the raw-storage theorem applied to a concrete mapping whose
values are the wire strings of the round-trip example. -/
theorem C10_witness :
    Schedule.from_json [("weekday_from", "09:00"), ("weekday_to", "16:00"),
                        ("weekend_from", "10:00"), ("weekend_to", "15:00")] =
      .ok ⟨.str "09:00", .str "16:00", .str "10:00", .str "15:00"⟩ :=
  C10_from_json_stores_raw
    [("weekday_from", "09:00"), ("weekday_to", "16:00"),
     ("weekend_from", "10:00"), ("weekend_to", "15:00")]
    "09:00" "16:00" "10:00" "15:00"
    (by decide) (by decide) (by decide) (by decide)

end Hackerpet
